import Mathlib

/-!
Verification of the asynchronous export-job subsystem of the ediscovery
backend (src/backend/fastapi/routers/export.py), as a shallow embedding.

Modelling conventions:
* Python datetimes are modelled as integers (Int); isoformat/str rendering
  is modelled by toString.
* The in-memory job table (export_jobs, line 41) is a function
  String → Option ExportJob; the export directory on disk is a function
  from path strings to Option FileState.
* I/O outcomes that are outside the program (whether the SQL query, the
  mkdir, or the file write raises) are supplied by an Env oracle; the
  document table itself is a list of DocumentRow.
* File contents are modelled structurally (header and cell strings for CSV,
  a record for the JSON document) rather than as flat byte strings.
-/

/-- ExportRequest (export.py lines 20-27). Dates are Ints. -/
structure ExportRequest where
  case_id : Option Int := none
  document_ids : Option (List Int) := none
  format : String := "csv"
  include_metadata : Bool := true
  date_from : Option Int := none
  date_to : Option Int := none
deriving Repr, DecidableEq

/-- ExportJob (export.py lines 29-38). -/
structure ExportJob where
  job_id : String
  status : String
  format : String
  created_at : Int
  completed_at : Option Int
  download_url : Option String
  total_records : Nat
  error_message : Option String
deriving Repr, DecidableEq

/-- One row of the document query result (export.py lines 96-108):
id, filename, case_id, case_name, case_number, file_type, file_size,
upload_date, uploaded_by, metadata, tags, hash.  case_name and case_number
come from a LEFT JOIN and may be NULL; metadata, tags and hash are modelled
as opaque optional strings. -/
structure DocumentRow where
  id : Int
  filename : String
  case_id : Int
  case_name : Option String
  case_number : Option String
  file_type : String
  file_size : Int
  upload_date : Int
  uploaded_by : String
  metadata : Option String
  tags : Option String
  hash : Option String
deriving Repr, DecidableEq

/-- The case filter (line 117: `if export_request.case_id:`) is appended
iff the Python value is truthy: None and 0 are falsy. -/
def matchesCase (r : ExportRequest) (d : DocumentRow) : Bool :=
  match r.case_id with
  | some c => if c ≠ 0 then decide (d.case_id = c) else true
  | none => true

/-- The id membership filter (line 121: `if export_request.document_ids:`)
is appended iff the list is truthy: None and the empty list are falsy. -/
def matchesIds (r : ExportRequest) (d : DocumentRow) : Bool :=
  match r.document_ids with
  | some l => if l ≠ [] then decide (d.id ∈ l) else true
  | none => true

/-- Lower date bound (lines 127-129): `d.upload_date >= :date_from`,
appended iff date_from is not None (a datetime object is always truthy). -/
def matchesFrom (r : ExportRequest) (d : DocumentRow) : Bool :=
  match r.date_from with
  | some t => decide (t ≤ d.upload_date)
  | none => true

/-- Upper date bound (lines 131-133): `d.upload_date <= :date_to`. -/
def matchesTo (r : ExportRequest) (d : DocumentRow) : Bool :=
  match r.date_to with
  | some t => decide (d.upload_date ≤ t)
  | none => true

/-- Conjunction of the appended WHERE clauses (lines 115-133). -/
def matchesQuery (r : ExportRequest) (d : DocumentRow) : Bool :=
  matchesCase r d && matchesIds r d && matchesFrom r d && matchesTo r d

/-- ORDER BY d.upload_date DESC (line 135). -/
def dateDesc (a b : DocumentRow) : Prop := b.upload_date ≤ a.upload_date

instance : DecidableRel dateDesc := fun a b => Int.decLe b.upload_date a.upload_date

instance : IsTotal DocumentRow dateDesc :=
  ⟨fun a b => Int.le_total b.upload_date a.upload_date⟩

instance : IsTrans DocumentRow dateDesc :=
  ⟨fun _ _ _ h1 h2 => le_trans h2 h1⟩

/-- Semantics of the SQL query built at lines 94-140: filter the document
table by the appended clauses and order by upload date descending. -/
def runQuery (db : List DocumentRow) (r : ExportRequest) : List DocumentRow :=
  List.insertionSort dateDesc (db.filter (matchesQuery r))

/-- Simplified json.dumps of an opaque string value: wrap in quotes. -/
def jsonDumpsStr (s : String) : String := "\"" ++ s ++ "\""

/-- Cell for a metadata or tags column (lines 168-169, 223-224):
`json.dumps(v) if v else ""` — None and the empty value are falsy. -/
def dumpsCell (o : Option String) : String :=
  match o with
  | some s => if s.isEmpty then "" else jsonDumpsStr s
  | none => ""

/-- CSV headers (lines 155-161): 9 core fields, plus 3 metadata fields when
include_metadata is set. -/
def csvHeaders (r : ExportRequest) : List String :=
  let base := ["ID", "Filename", "Case ID", "Case Name", "Case Number",
               "File Type", "File Size (bytes)", "Upload Date", "Uploaded By"]
  if r.include_metadata then base ++ ["Metadata", "Tags", "Hash"] else base

/-- The 9 core cells of a data row, `list(row[:9])` (line 165), with the
csv writer rendering every value as a string and NULL as the empty string. -/
def csvCoreRow (d : DocumentRow) : List String :=
  [toString d.id, d.filename, toString d.case_id, d.case_name.getD "",
   d.case_number.getD "", d.file_type, toString d.file_size,
   toString d.upload_date, d.uploaded_by]

/-- A full CSV data row (lines 164-172); the same cell layout is used for
the xlsx records at lines 208-227 (hash cell: `row[11] or ""`). -/
def csvRowOfDoc (r : ExportRequest) (d : DocumentRow) : List String :=
  if r.include_metadata then
    csvCoreRow d ++ [dumpsCell d.metadata, dumpsCell d.tags, d.hash.getD ""]
  else
    csvCoreRow d

/-- One per-document object of the JSON export (lines 176-194); the three
metadata keys are present only when include_metadata is set. -/
structure JsonDoc where
  id : Int
  filename : String
  case_id : Int
  case_name : Option String
  case_number : Option String
  file_type : String
  file_size : Int
  upload_date : String
  uploaded_by : String
  metadata : Option String := none
  tags : Option String := none
  hash : Option String := none
deriving Repr, DecidableEq

def jsonDocOfRow (r : ExportRequest) (d : DocumentRow) : JsonDoc :=
  let base : JsonDoc :=
    { id := d.id, filename := d.filename, case_id := d.case_id,
      case_name := d.case_name, case_number := d.case_number,
      file_type := d.file_type, file_size := d.file_size,
      upload_date := toString d.upload_date, uploaded_by := d.uploaded_by }
  if r.include_metadata then
    { base with metadata := d.metadata, tags := d.tags, hash := d.hash }
  else
    base

/-- The top-level JSON document (lines 196-201). -/
structure JsonExport where
  export_date : Int
  total_records : Nat
  documents : List JsonDoc
deriving Repr, DecidableEq

/-- Structural content of a fully written export file. -/
inductive FileContent where
  | csvFile (headers : List String) (rows : List (List String))
  | jsonFile (content : JsonExport)
  | xlsxFile (rows : List (List String))
deriving Repr, DecidableEq

/-- State of a path in the export directory.  Python's open(filepath, 'w')
creates (or truncates) the file before any data is written, so a failure
during serialization leaves the created file behind; FileState.truncated
records that half-written file. -/
inductive FileState where
  | written (content : FileContent)
  | truncated
deriving Repr, DecidableEq

/-- The export directory on disk, keyed by path string. -/
def FS : Type := String → Option FileState

def emptyFS : FS := fun _ => none

def setFile (fs : FS) (p : String) (st : FileState) : FS :=
  fun q => if q = p then some st else fs q

/-- The in-memory job table export_jobs (line 41). -/
def JobMap : Type := String → Option ExportJob

def emptyJobs : JobMap := fun _ => none

def setJob (jobs : JobMap) (id : String) (j : ExportJob) : JobMap :=
  fun q => if q = id then some j else jobs q

/-- settings.export_dir is "./exports" (config.py line 22); the output path
is export_dir / f"{job_id}.{format}" (lines 147-148, 264). -/
def exportPath (job_id fmt : String) : String :=
  "./exports/" ++ job_id ++ "." ++ fmt

/-- Outcomes of the external effects inside the try block: whether the SQL
execution raises (with the exception text), whether mkdir raises, whether
the file write raises after the file has been opened, and whether the
pandas/openpyxl import succeeds (line 205). -/
structure Env where
  queryOk : Except String Unit
  mkdirOk : Except String Unit
  writeOk : Except String Unit
  pandasAvailable : Bool

/-- An Env in which every effect succeeds. -/
def envOk : Env := ⟨.ok (), .ok (), .ok (), true⟩

/-- The except handler at lines 241-243: sets status to failed and
error_message to str(e).  It does not touch completed_at. -/
def failJob (j : ExportJob) (msg : String) : ExportJob :=
  { j with status := "failed", error_message := some msg }

/-- The success updates at lines 235-239: status, completed_at,
download_url (the route main.py mounts under /api/export), total_records. -/
def completeJob (j : ExportJob) (now : Int) (rowCount : Nat) : ExportJob :=
  { j with status := "completed", completed_at := some now,
           download_url := some ("/api/export/download/" ++ j.job_id),
           total_records := rowCount }

/-- Result of one run of the background task: the final value of the job
record, the filesystem, and the successive externally observable snapshots
of the job record (after the mutation at line 91 and after the terminal
mutation block; process_export contains no await, so intermediate
single-field states are not observable from other coroutines). -/
structure ProcResult where
  job : ExportJob
  fs : FS
  snapshots : List ExportJob

/-- process_export (export.py lines 87-243).  The job record j is the
record export_jobs[job_id]; db is the documents table; env supplies the
outcomes of the effectful steps; now stands for the utcnow() calls of the
terminal block.  Control flow: set status processing (91); run the query
(94-140); mkdir (142-144); serialize per format (150-233) — note that a
format matching none of csv/json/xlsx skips serialization entirely and
falls through to the success block (235-239); any raise is caught at
241-243. -/
def process_export (j : ExportJob) (req : ExportRequest) (db : List DocumentRow)
    (fs : FS) (env : Env) (now : Int) : ProcResult :=
  let j1 := { j with status := "processing" }
  let step : ExportJob × FS :=
    match env.queryOk with
    | .error e => (failJob j1 e, fs)
    | .ok _ =>
      let rows := runQuery db req
      match env.mkdirOk with
      | .error e => (failJob j1 e, fs)
      | .ok _ =>
        let path := exportPath j.job_id req.format
        if req.format = "csv" then
          match env.writeOk with
          | .error e => (failJob j1 e, setFile fs path .truncated)
          | .ok _ =>
            (completeJob j1 now rows.length,
             setFile fs path
               (.written (.csvFile (csvHeaders req) (rows.map (csvRowOfDoc req)))))
        else if req.format = "json" then
          match env.writeOk with
          | .error e => (failJob j1 e, setFile fs path .truncated)
          | .ok _ =>
            (completeJob j1 now rows.length,
             setFile fs path
               (.written (.jsonFile ⟨now, rows.length, rows.map (jsonDocOfRow req)⟩)))
        else if req.format = "xlsx" then
          if env.pandasAvailable then
            match env.writeOk with
            | .error e => (failJob j1 e, setFile fs path .truncated)
            | .ok _ =>
              (completeJob j1 now rows.length,
               setFile fs path (.written (.xlsxFile (rows.map (csvRowOfDoc req)))))
          else
            (failJob j1 "pandas and openpyxl required for XLSX export", fs)
        else
          (completeJob j1 now rows.length, fs)
  ⟨step.1, step.2, [j1, step.1]⟩

/-- export_documents (export.py lines 43-85): generates a job id, creates
the pending record, stores it, schedules process_export, and returns the
record.  No validation of the requested format is performed anywhere in
the handler.  Returns the updated job table and the created record. -/
def export_documents (jobs : JobMap) (req : ExportRequest) (now : Int)
    (job_id : String) : JobMap × ExportJob :=
  let job : ExportJob :=
    { job_id := job_id, status := "pending", format := req.format,
      created_at := now, completed_at := none, download_url := none,
      total_records := 0, error_message := none }
  (setJob jobs job_id job, job)

/-- Response value of a successful download (FileResponse, lines 276-280). -/
structure DownloadResponse where
  path : String
  media_type : String
  filename : String
deriving Repr, DecidableEq

/-- Media type lookup with fallback (lines 270-278). -/
def mediaTypeOf (fmt : String) : String :=
  if fmt = "csv" then "text/csv"
  else if fmt = "json" then "application/json"
  else if fmt = "xlsx" then
    "application/vnd.openxmlformats-officedocument.spreadsheetml.sheet"
  else "application/octet-stream"

/-- download_export (export.py lines 253-280).  today stands for the
strftime-rendered date used in the client-facing filename.  Errors carry
the HTTP status code and the detail string. -/
def download_export (jobs : JobMap) (fs : FS) (job_id : String)
    (today : String) : Except (Nat × String) DownloadResponse :=
  match jobs job_id with
  | none => .error (404, "Export job not found")
  | some job =>
    if job.status ≠ "completed" then
      .error (400, "Export not ready. Status: " ++ job.status)
    else
      let filepath := exportPath job_id job.format
      match fs filepath with
      | none => .error (404, "Export file not found")
      | some _ =>
        .ok { path := filepath, media_type := mediaTypeOf job.format,
              filename := "ediscovery_export_" ++ today ++ "." ++ job.format }

/-- The condition under which the try block of process_export raises,
read off its control flow: the query raises, or mkdir raises, or the write
raises in a branch that writes, or the pandas import fails for xlsx. -/
def raisesError (req : ExportRequest) (env : Env) : Bool :=
  match env.queryOk with
  | .error _ => true
  | .ok _ =>
    match env.mkdirOk with
    | .error _ => true
    | .ok _ =>
      if req.format = "csv" ∨ req.format = "json" then
        match env.writeOk with
        | .error _ => true
        | .ok _ => false
      else if req.format = "xlsx" then
        if env.pandasAvailable then
          match env.writeOk with
          | .error _ => true
          | .ok _ => false
        else true
      else false

/-- Successive externally observable values of one job record, from
submission through the background task: the pending record created by
export_documents followed by the snapshots of process_export. -/
def jobLifecycle (req : ExportRequest) (db : List DocumentRow) (fs : FS)
    (env : Env) (now0 now1 : Int) (job_id : String) : List ExportJob :=
  let p := export_documents emptyJobs req now0 job_id
  p.2 :: (process_export p.2 req db fs env now1).snapshots

/-! ## Helper lemmas shared across the verification -/

/-- Every run of process_export ends with the job either completed (with the
row count of the query) or failed (with some exception text). -/
theorem processExport_job_cases (j : ExportJob) (req : ExportRequest)
    (db : List DocumentRow) (fs : FS) (env : Env) (now : Int) :
    (process_export j req db fs env now).job =
      completeJob { j with status := "processing" } now (runQuery db req).length ∨
    ∃ e, (process_export j req db fs env now).job =
      failJob { j with status := "processing" } e := by
  unfold process_export
  dsimp only
  repeat' split
  all_goals first
    | exact Or.inl rfl
    | exact Or.inr ⟨_, rfl⟩

/-- The snapshot list of a run is the processing record followed by the
terminal record. -/
theorem processExport_snapshots (j : ExportJob) (req : ExportRequest)
    (db : List DocumentRow) (fs : FS) (env : Env) (now : Int) :
    (process_export j req db fs env now).snapshots =
      [{ j with status := "processing" }, (process_export j req db fs env now).job] :=
  rfl

/-! ## Claim C3 -/

/-- C3: for every submitted job, the sequence of status values it takes is
exactly [pending, processing, completed] or [pending, processing, failed]:
it starts at pending, never moves backward, never skips processing, and
takes no further transition after reaching a terminal state. -/
theorem c3_status_sequence (req : ExportRequest) (db : List DocumentRow)
    (fs : FS) (env : Env) (now0 now1 : Int) (job_id : String) :
    (jobLifecycle req db fs env now0 now1 job_id).map (fun j => j.status) =
      ["pending", "processing", "completed"] ∨
    (jobLifecycle req db fs env now0 now1 job_id).map (fun j => j.status) =
      ["pending", "processing", "failed"] := by
  unfold jobLifecycle export_documents
  dsimp only
  rw [processExport_snapshots]
  rcases processExport_job_cases
      { job_id := job_id, status := "pending", format := req.format,
        created_at := now0, completed_at := none, download_url := none,
        total_records := 0, error_message := none } req db fs env now1 with h | ⟨e, h⟩
  · rw [h]; exact Or.inl rfl
  · rw [h]; exact Or.inr rfl

/-! ## Claim C2 -/

/-- C2 counterexample: a concrete run whose query raises leaves the job
failed with error_message set but completed_at still null, refuting the
claim that both completed_at and error_message are set on failure. -/
theorem c2_counterexample :
    (process_export
        { job_id := "export_x", status := "pending", format := "csv",
          created_at := 0, completed_at := none, download_url := none,
          total_records := 0, error_message := none }
        { format := "csv" } [] emptyFS ⟨.error "boom", .ok (), .ok (), true⟩ 1).job.status
        = "failed" ∧
    (process_export
        { job_id := "export_x", status := "pending", format := "csv",
          created_at := 0, completed_at := none, download_url := none,
          total_records := 0, error_message := none }
        { format := "csv" } [] emptyFS ⟨.error "boom", .ok (), .ok (), true⟩ 1).job.error_message
        = some "boom" ∧
    (process_export
        { job_id := "export_x", status := "pending", format := "csv",
          created_at := 0, completed_at := none, download_url := none,
          total_records := 0, error_message := none }
        { format := "csv" } [] emptyFS ⟨.error "boom", .ok (), .ok (), true⟩ 1).job.completed_at
        = none :=
  ⟨rfl, rfl, rfl⟩

/-- C2 amended: whenever the try block of process_export raises, the job
transitions to failed with error_message set to the exception text, while
completed_at is left untouched (it remains null for a freshly submitted
job); the handler swallows the exception, so the task returns normally
(process_export is a total function). -/
theorem c2_failure_handling (j : ExportJob) (req : ExportRequest)
    (db : List DocumentRow) (fs : FS) (env : Env) (now : Int)
    (h : raisesError req env = true) :
    (process_export j req db fs env now).job.status = "failed" ∧
    (process_export j req db fs env now).job.error_message.isSome = true ∧
    (process_export j req db fs env now).job.completed_at = j.completed_at := by
  unfold raisesError at h
  unfold process_export
  dsimp only
  rcases env with ⟨q, m, w, p⟩
  rcases q with e | ⟨⟩
  · exact ⟨rfl, rfl, rfl⟩
  rcases m with e | ⟨⟩
  · exact ⟨rfl, rfl, rfl⟩
  dsimp only at h ⊢
  by_cases h1 : req.format = "csv"
  · rw [if_pos h1]
    rw [if_pos (Or.inl h1)] at h
    rcases w with e | ⟨⟩
    · exact ⟨rfl, rfl, rfl⟩
    · simp at h
  rw [if_neg h1]
  by_cases h2 : req.format = "json"
  · rw [if_pos h2]
    rw [if_pos (Or.inr h2)] at h
    rcases w with e | ⟨⟩
    · exact ⟨rfl, rfl, rfl⟩
    · simp at h
  rw [if_neg h2]
  rw [if_neg (by rintro (hc | hj) <;> [exact h1 hc; exact h2 hj])] at h
  by_cases h3 : req.format = "xlsx"
  · rw [if_pos h3]
    rw [if_pos h3] at h
    rcases p with _ | _
    · exact ⟨rfl, rfl, rfl⟩
    · rcases w with e | ⟨⟩
      · exact ⟨rfl, rfl, rfl⟩
      · simp at h
  rw [if_neg h3]
  rw [if_neg h3] at h
  exact absurd h (by decide)

/-- Witness for c2_failure_handling at a concrete failing run. -/
theorem c2_failure_handling_witness :
    raisesError { format := "csv" } ⟨.error "boom", .ok (), .ok (), true⟩ = true ∧
    ((process_export
        { job_id := "export_y", status := "pending", format := "csv",
          created_at := 0, completed_at := none, download_url := none,
          total_records := 0, error_message := none }
        { format := "csv" } [] emptyFS ⟨.error "boom", .ok (), .ok (), true⟩ 1).job.status
        = "failed" ∧
     (process_export
        { job_id := "export_y", status := "pending", format := "csv",
          created_at := 0, completed_at := none, download_url := none,
          total_records := 0, error_message := none }
        { format := "csv" } [] emptyFS ⟨.error "boom", .ok (), .ok (), true⟩ 1).job.error_message.isSome
        = true ∧
     (process_export
        { job_id := "export_y", status := "pending", format := "csv",
          created_at := 0, completed_at := none, download_url := none,
          total_records := 0, error_message := none }
        { format := "csv" } [] emptyFS ⟨.error "boom", .ok (), .ok (), true⟩ 1).job.completed_at
        = none) :=
  ⟨rfl, c2_failure_handling _ _ [] emptyFS _ 1 rfl⟩

/-! ## Claim C9 -/

/-- C9: at every externally observable point of a job's lifecycle,
download_url is non-null exactly when the status is completed,
error_message is non-null exactly when the status is failed, and
total_records is 0 unless the job has reached completed. -/
theorem c9_record_invariants (req : ExportRequest) (db : List DocumentRow)
    (fs : FS) (env : Env) (now0 now1 : Int) (job_id : String) (s : ExportJob)
    (hs : s ∈ jobLifecycle req db fs env now0 now1 job_id) :
    (s.download_url ≠ none ↔ s.status = "completed") ∧
    (s.error_message ≠ none ↔ s.status = "failed") ∧
    (s.status ≠ "completed" → s.total_records = 0) := by
  unfold jobLifecycle export_documents at hs
  dsimp only at hs
  rw [processExport_snapshots] at hs
  rcases processExport_job_cases
      { job_id := job_id, status := "pending", format := req.format,
        created_at := now0, completed_at := none, download_url := none,
        total_records := 0, error_message := none } req db fs env now1 with h | ⟨e, h⟩ <;>
    rw [h] at hs <;>
    simp only [List.mem_cons, List.mem_singleton, List.not_mem_nil, or_false] at hs
  · rcases hs with rfl | rfl | rfl
    · dsimp only
      exact ⟨⟨fun h => absurd rfl h, fun h => absurd h (by decide)⟩,
             ⟨fun h => absurd rfl h, fun h => absurd h (by decide)⟩, fun _ => rfl⟩
    · dsimp only
      exact ⟨⟨fun h => absurd rfl h, fun h => absurd h (by decide)⟩,
             ⟨fun h => absurd rfl h, fun h => absurd h (by decide)⟩, fun _ => rfl⟩
    · dsimp only [completeJob]
      exact ⟨⟨fun _ => rfl, fun _ => Option.some_ne_none _⟩,
             ⟨fun h => absurd rfl h, fun h => absurd h (by decide)⟩,
             fun hc => absurd rfl hc⟩
  · rcases hs with rfl | rfl | rfl
    · dsimp only
      exact ⟨⟨fun h => absurd rfl h, fun h => absurd h (by decide)⟩,
             ⟨fun h => absurd rfl h, fun h => absurd h (by decide)⟩, fun _ => rfl⟩
    · dsimp only
      exact ⟨⟨fun h => absurd rfl h, fun h => absurd h (by decide)⟩,
             ⟨fun h => absurd rfl h, fun h => absurd h (by decide)⟩, fun _ => rfl⟩
    · dsimp only [failJob]
      exact ⟨⟨fun h => absurd rfl h, fun h => absurd h (by decide)⟩,
             ⟨fun _ => rfl, fun _ => Option.some_ne_none _⟩, fun _ => rfl⟩

/-- Witness for c9_record_invariants: the terminal record of a concrete
successful run satisfies the invariants. -/
theorem c9_record_invariants_witness :
    ((process_export
        { job_id := "export_z", status := "pending", format := "csv",
          created_at := 0, completed_at := none, download_url := none,
          total_records := 0, error_message := none }
        { format := "csv" } [] emptyFS envOk 1).job ∈
      jobLifecycle { format := "csv" } [] emptyFS envOk 0 1 "export_z") ∧
    (((process_export
        { job_id := "export_z", status := "pending", format := "csv",
          created_at := 0, completed_at := none, download_url := none,
          total_records := 0, error_message := none }
        { format := "csv" } [] emptyFS envOk 1).job.download_url ≠ none ↔
      (process_export
        { job_id := "export_z", status := "pending", format := "csv",
          created_at := 0, completed_at := none, download_url := none,
          total_records := 0, error_message := none }
        { format := "csv" } [] emptyFS envOk 1).job.status = "completed") ∧
     ((process_export
        { job_id := "export_z", status := "pending", format := "csv",
          created_at := 0, completed_at := none, download_url := none,
          total_records := 0, error_message := none }
        { format := "csv" } [] emptyFS envOk 1).job.error_message ≠ none ↔
      (process_export
        { job_id := "export_z", status := "pending", format := "csv",
          created_at := 0, completed_at := none, download_url := none,
          total_records := 0, error_message := none }
        { format := "csv" } [] emptyFS envOk 1).job.status = "failed") ∧
     ((process_export
        { job_id := "export_z", status := "pending", format := "csv",
          created_at := 0, completed_at := none, download_url := none,
          total_records := 0, error_message := none }
        { format := "csv" } [] emptyFS envOk 1).job.status ≠ "completed" →
      (process_export
        { job_id := "export_z", status := "pending", format := "csv",
          created_at := 0, completed_at := none, download_url := none,
          total_records := 0, error_message := none }
        { format := "csv" } [] emptyFS envOk 1).job.total_records = 0)) :=
  ⟨by simp [jobLifecycle, export_documents, processExport_snapshots],
   c9_record_invariants { format := "csv" } [] emptyFS envOk 0 1 "export_z" _
     (by simp [jobLifecycle, export_documents, processExport_snapshots])⟩

/-! ## Claim C4 -/

/-- C4: download fails 404 when the job id is unknown, fails 400 (distinct)
when the job exists but is not completed, fails 404 when the job is
completed but its file is missing on disk, and only when the job exists,
is completed, and the file exists does it return the file stream with the
format-derived content type. -/
theorem c4_download_protocol (jobs : JobMap) (fs : FS) (job_id today : String) :
    (jobs job_id = none →
      download_export jobs fs job_id today = .error (404, "Export job not found")) ∧
    (∀ job, jobs job_id = some job → job.status ≠ "completed" →
      download_export jobs fs job_id today =
        .error (400, "Export not ready. Status: " ++ job.status)) ∧
    (∀ job, jobs job_id = some job → job.status = "completed" →
      fs (exportPath job_id job.format) = none →
      download_export jobs fs job_id today = .error (404, "Export file not found")) ∧
    (∀ job st, jobs job_id = some job → job.status = "completed" →
      fs (exportPath job_id job.format) = some st →
      download_export jobs fs job_id today =
        .ok { path := exportPath job_id job.format,
              media_type := mediaTypeOf job.format,
              filename := "ediscovery_export_" ++ today ++ "." ++ job.format }) := by
  refine ⟨?_, ?_, ?_, ?_⟩
  · intro h
    unfold download_export
    rw [h]
  · intro job hj hst
    unfold download_export
    rw [hj]
    dsimp only
    rw [if_pos hst]
  · intro job hj hst hf
    unfold download_export
    rw [hj]
    dsimp only
    rw [if_neg (fun hne => hne hst), hf]
  · intro job st hj hst hf
    unfold download_export
    rw [hj]
    dsimp only
    rw [if_neg (fun hne => hne hst), hf]

/-- Fixture job table for the download witness: a pending job, a completed
job whose file exists, and a completed job whose file is missing. -/
def c4Jobs : JobMap :=
  setJob
    (setJob
      (setJob emptyJobs "export_a"
        { job_id := "export_a", status := "pending", format := "csv",
          created_at := 0, completed_at := none, download_url := none,
          total_records := 0, error_message := none })
      "export_b"
      { job_id := "export_b", status := "completed", format := "csv",
        created_at := 0, completed_at := some 1,
        download_url := some "/api/export/download/export_b",
        total_records := 0, error_message := none })
    "export_c"
    { job_id := "export_c", status := "completed", format := "json",
      created_at := 0, completed_at := some 1,
      download_url := some "/api/export/download/export_c",
      total_records := 0, error_message := none }

/-- Fixture filesystem for the download witness: only export_b's file is
on disk. -/
def c4Fs : FS :=
  setFile emptyFS (exportPath "export_b" "csv")
    (.written (.csvFile (csvHeaders {}) []))

/-- Witness for c4_download_protocol: all four branches at concrete inputs. -/
theorem c4_download_protocol_witness :
    download_export c4Jobs c4Fs "nope" "20260101" =
      .error (404, "Export job not found") ∧
    download_export c4Jobs c4Fs "export_a" "20260101" =
      .error (400, "Export not ready. Status: pending") ∧
    download_export c4Jobs c4Fs "export_c" "20260101" =
      .error (404, "Export file not found") ∧
    download_export c4Jobs c4Fs "export_b" "20260101" =
      .ok { path := exportPath "export_b" "csv", media_type := "text/csv",
            filename := "ediscovery_export_20260101.csv" } :=
  ⟨(c4_download_protocol c4Jobs c4Fs "nope" "20260101").1 rfl,
   (c4_download_protocol c4Jobs c4Fs "export_a" "20260101").2.1 _ rfl (by decide),
   (c4_download_protocol c4Jobs c4Fs "export_c" "20260101").2.2.1 _ rfl rfl rfl,
   (c4_download_protocol c4Jobs c4Fs "export_b" "20260101").2.2.2 _
     (.written (.csvFile (csvHeaders {}) [])) rfl rfl rfl⟩

/-! ## Claims C5 and C10: query semantics -/

/-- The case clause is equivalent to equality on case id whenever the
request's case_id is not the falsy value 0. -/
theorem matchesCase_iff (r : ExportRequest) (d : DocumentRow)
    (h1 : r.case_id ≠ some 0) :
    matchesCase r d = true ↔ ∀ c, r.case_id = some c → d.case_id = c := by
  unfold matchesCase
  rcases hc : r.case_id with _ | c
  · simp
  · have hcz : c ≠ 0 := fun h => h1 (by rw [hc, h])
    dsimp only
    rw [if_pos hcz]
    simp

/-- The membership clause is equivalent to membership in the id list
whenever the request's document_ids is not the falsy empty list. -/
theorem matchesIds_iff (r : ExportRequest) (d : DocumentRow)
    (h2 : r.document_ids ≠ some []) :
    matchesIds r d = true ↔ ∀ l, r.document_ids = some l → d.id ∈ l := by
  unfold matchesIds
  rcases hd : r.document_ids with _ | l
  · simp
  · have hlz : l ≠ [] := fun h => h2 (by rw [hd, h])
    dsimp only
    rw [if_pos hlz]
    simp

/-- The lower date clause is the inclusive lower bound. -/
theorem matchesFrom_iff (r : ExportRequest) (d : DocumentRow) :
    matchesFrom r d = true ↔ ∀ t, r.date_from = some t → t ≤ d.upload_date := by
  unfold matchesFrom
  rcases hf : r.date_from with _ | t <;> simp

/-- The upper date clause is the inclusive upper bound. -/
theorem matchesTo_iff (r : ExportRequest) (d : DocumentRow) :
    matchesTo r d = true ↔ ∀ t, r.date_to = some t → d.upload_date ≤ t := by
  unfold matchesTo
  rcases ht : r.date_to with _ | t <;> simp

/-- The whole WHERE clause is the conjunction of the four filters, away
from the two falsy edge values. -/
theorem matchesQuery_iff (r : ExportRequest) (d : DocumentRow)
    (h1 : r.case_id ≠ some 0) (h2 : r.document_ids ≠ some []) :
    matchesQuery r d = true ↔
      ((∀ c, r.case_id = some c → d.case_id = c) ∧
       (∀ l, r.document_ids = some l → d.id ∈ l) ∧
       (∀ t, r.date_from = some t → t ≤ d.upload_date) ∧
       (∀ t, r.date_to = some t → d.upload_date ≤ t)) := by
  unfold matchesQuery
  simp only [Bool.and_eq_true]
  rw [matchesCase_iff r d h1, matchesIds_iff r d h2, matchesFrom_iff, matchesTo_iff]
  tauto

/-- C5: the resolved document set applies each given filter conjunctively
(equality on case id, membership in the id list, inclusive date bounds)
and is ordered by upload date descending.  The hypotheses exclude the two
Python-falsy values (case_id 0, empty id list), whose deviating behavior
is the subject of C10. -/
theorem c5_filter_semantics (db : List DocumentRow) (req : ExportRequest)
    (h1 : req.case_id ≠ some 0) (h2 : req.document_ids ≠ some []) :
    (∀ d, d ∈ runQuery db req ↔ d ∈ db ∧
        ((∀ c, req.case_id = some c → d.case_id = c) ∧
         (∀ l, req.document_ids = some l → d.id ∈ l) ∧
         (∀ t, req.date_from = some t → t ≤ d.upload_date) ∧
         (∀ t, req.date_to = some t → d.upload_date ≤ t))) ∧
    (runQuery db req).Sorted dateDesc := by
  refine ⟨fun d => ?_, List.sorted_insertionSort dateDesc _⟩
  unfold runQuery
  rw [List.mem_insertionSort, List.mem_filter, matchesQuery_iff req d h1 h2]

/-- Fixture documents for the query witnesses. -/
def c5DocA : DocumentRow :=
  { id := 3, filename := "a.txt", case_id := 1, case_name := some "Case A",
    case_number := some "A-1", file_type := "txt", file_size := 10,
    upload_date := 100, uploaded_by := "alice", metadata := none,
    tags := none, hash := none }

def c5DocB : DocumentRow :=
  { id := 4, filename := "b.txt", case_id := 1, case_name := some "Case A",
    case_number := some "A-1", file_type := "txt", file_size := 20,
    upload_date := 200, uploaded_by := "bob", metadata := none,
    tags := none, hash := none }

def c5DocC : DocumentRow :=
  { id := 5, filename := "c.txt", case_id := 2, case_name := some "Case B",
    case_number := some "B-1", file_type := "txt", file_size := 30,
    upload_date := 300, uploaded_by := "carol", metadata := none,
    tags := none, hash := none }

def c5Db : List DocumentRow := [c5DocA, c5DocB, c5DocC]

def c5Req : ExportRequest := { document_ids := some [3, 5, 9], format := "csv" }

/-- Witness for c5_filter_semantics: with document_ids = [3,5,9] over a
store holding ids 3, 4, 5, the theorem applies, and evaluation shows the
result is exactly the present subset [5, 3] in upload-date-descending
order. -/
theorem c5_filter_semantics_witness :
    c5Req.case_id ≠ some 0 ∧ c5Req.document_ids ≠ some [] ∧
    ((∀ d, d ∈ runQuery c5Db c5Req ↔ d ∈ c5Db ∧
        ((∀ c, c5Req.case_id = some c → d.case_id = c) ∧
         (∀ l, c5Req.document_ids = some l → d.id ∈ l) ∧
         (∀ t, c5Req.date_from = some t → t ≤ d.upload_date) ∧
         (∀ t, c5Req.date_to = some t → d.upload_date ≤ t))) ∧
     (runQuery c5Db c5Req).Sorted dateDesc) ∧
    runQuery c5Db c5Req = [c5DocC, c5DocA] :=
  ⟨by decide, by decide,
   c5_filter_semantics c5Db c5Req (by decide) (by decide), by decide⟩

/-- C10: because the processor tests filter criteria by Python truthiness,
each falsy value independently drops its own filter: a request with
case_id 0 applies no case filter (its query equals that of the same
request with case_id absent, whatever document_ids is), and a request with
document_ids [] applies no membership filter (its query equals that of the
same request with document_ids absent, whatever case_id is), so
document_ids=[] exports every document matching the remaining filters. -/
theorem c10_truthiness (db : List DocumentRow) (req : ExportRequest) :
    (req.case_id = some 0 →
      runQuery db req = runQuery db { req with case_id := none }) ∧
    (req.document_ids = some [] →
      runQuery db req = runQuery db { req with document_ids := none }) := by
  constructor
  · intro h1
    have hp : matchesQuery req = matchesQuery { req with case_id := none } := by
      funext d
      simp [matchesQuery, matchesCase, matchesIds, matchesFrom, matchesTo, h1]
    unfold runQuery
    rw [hp]
  · intro h2
    have hp : matchesQuery req = matchesQuery { req with document_ids := none } := by
      funext d
      simp [matchesQuery, matchesCase, matchesIds, matchesFrom, matchesTo, h2]
    unfold runQuery
    rw [hp]

/-- Witness for c10_truthiness, one concrete run per conjunct: with
case_id 0 and document_ids [3], only the case filter is dropped (the
membership filter still selects id 3); with document_ids [] and case_id 2,
only the membership filter is dropped (the case filter still selects the
case-2 document), so the export is not the empty set. -/
theorem c10_truthiness_witness :
    (({ case_id := some 0, document_ids := some [3], format := "csv" } :
        ExportRequest).case_id = some 0) ∧
    runQuery c5Db { case_id := some 0, document_ids := some [3], format := "csv" } =
      runQuery c5Db { case_id := none, document_ids := some [3], format := "csv" } ∧
    runQuery c5Db { case_id := some 0, document_ids := some [3], format := "csv" } =
      [c5DocA] ∧
    (({ case_id := some 2, document_ids := some [], format := "csv" } :
        ExportRequest).document_ids = some []) ∧
    runQuery c5Db { case_id := some 2, document_ids := some [], format := "csv" } =
      runQuery c5Db { case_id := some 2, document_ids := none, format := "csv" } ∧
    runQuery c5Db { case_id := some 2, document_ids := some [], format := "csv" } =
      [c5DocC] :=
  ⟨rfl,
   (c10_truthiness c5Db
     { case_id := some 0, document_ids := some [3], format := "csv" }).1 rfl,
   by decide, rfl,
   (c10_truthiness c5Db
     { case_id := some 2, document_ids := some [], format := "csv" }).2 rfl,
   by decide⟩

/-! ## Claim C1 -/

/-- C1 evaluation at the failing input: export_documents performs no format
validation, so submitting the unsupported format "pdf" stores a pending
job; the processor then matches no serialization branch and marks the job
completed with a download_url, although no file is written at the job's
path. -/
theorem c1_no_format_validation :
    ((export_documents emptyJobs { format := "pdf" } 0 "export_p").1 "export_p"
       = some (export_documents emptyJobs { format := "pdf" } 0 "export_p").2) ∧
    (export_documents emptyJobs { format := "pdf" } 0 "export_p").2.status = "pending" ∧
    (process_export (export_documents emptyJobs { format := "pdf" } 0 "export_p").2
        { format := "pdf" } [] emptyFS envOk 1).job.status = "completed" ∧
    (process_export (export_documents emptyJobs { format := "pdf" } 0 "export_p").2
        { format := "pdf" } [] emptyFS envOk 1).job.download_url
      = some "/api/export/download/export_p" ∧
    (process_export (export_documents emptyJobs { format := "pdf" } 0 "export_p").2
        { format := "pdf" } [] emptyFS envOk 1).fs (exportPath "export_p" "pdf") = none :=
  ⟨rfl, rfl, rfl, rfl, rfl⟩

/-! ## Claim C7 -/

/-- C7: for an xlsx request, when the pandas/openpyxl import fails, the
export fails — the job ends failed with the unsupported-capability error
recorded as its error_message — and no file is produced in any format
(the filesystem is untouched at every path). -/
theorem c7_xlsx_missing_dependency (j : ExportJob) (req : ExportRequest)
    (db : List DocumentRow) (fs : FS) (env : Env) (now : Int)
    (hf : req.format = "xlsx") (hp : env.pandasAvailable = false)
    (hq : env.queryOk = .ok ()) (hm : env.mkdirOk = .ok ()) :
    (process_export j req db fs env now).job.status = "failed" ∧
    (process_export j req db fs env now).job.error_message =
      some "pandas and openpyxl required for XLSX export" ∧
    ∀ p, (process_export j req db fs env now).fs p = fs p := by
  unfold process_export
  rcases env with ⟨q, m, w, pa⟩
  dsimp only at hq hm hp ⊢
  subst hq hm hp
  dsimp only
  rw [hf]
  rw [if_neg (by decide), if_neg (by decide), if_pos rfl, if_neg (by decide)]
  exact ⟨rfl, rfl, fun p => rfl⟩

/-- Witness for c7_xlsx_missing_dependency at a concrete run. -/
theorem c7_xlsx_missing_dependency_witness :
    (({ format := "xlsx" } : ExportRequest).format = "xlsx") ∧
    ((⟨.ok (), .ok (), .ok (), false⟩ : Env).pandasAvailable = false) ∧
    ((process_export
        { job_id := "export_w", status := "pending", format := "xlsx",
          created_at := 0, completed_at := none, download_url := none,
          total_records := 0, error_message := none }
        { format := "xlsx" } [] emptyFS ⟨.ok (), .ok (), .ok (), false⟩ 1).job.status
        = "failed" ∧
     (process_export
        { job_id := "export_w", status := "pending", format := "xlsx",
          created_at := 0, completed_at := none, download_url := none,
          total_records := 0, error_message := none }
        { format := "xlsx" } [] emptyFS ⟨.ok (), .ok (), .ok (), false⟩ 1).job.error_message
        = some "pandas and openpyxl required for XLSX export" ∧
     ∀ p, (process_export
        { job_id := "export_w", status := "pending", format := "xlsx",
          created_at := 0, completed_at := none, download_url := none,
          total_records := 0, error_message := none }
        { format := "xlsx" } [] emptyFS ⟨.ok (), .ok (), .ok (), false⟩ 1).fs p
        = emptyFS p) :=
  ⟨rfl, rfl,
   c7_xlsx_missing_dependency
     { job_id := "export_w", status := "pending", format := "xlsx",
       created_at := 0, completed_at := none, download_url := none,
       total_records := 0, error_message := none }
     { format := "xlsx" } [] emptyFS ⟨.ok (), .ok (), .ok (), false⟩ 1
     rfl rfl rfl rfl⟩

/-! ## Claim C8 -/

theorem setFile_self (fs : FS) (p : String) (st : FileState) :
    setFile fs p st p = some st := by
  unfold setFile
  rw [if_pos rfl]

/-- The first CSV cell of every data row is the document id. -/
theorem csvRowOfDoc_head (r : ExportRequest) (d : DocumentRow) :
    (csvRowOfDoc r d).headD "" = toString d.id := by
  unfold csvRowOfDoc csvCoreRow
  cases hr : r.include_metadata <;> simp [hr]

/-- The id field of every JSON per-document object is the document id. -/
theorem jsonDocOfRow_id (r : ExportRequest) (d : DocumentRow) :
    (jsonDocOfRow r d).id = d.id := by
  unfold jsonDocOfRow
  cases hr : r.include_metadata <;> simp [hr]

/-- C8: on a successful run, the CSV file holds one data row per query row
whose first cell is the document id (so the identifiers written equal the
identifiers returned by the query, in order), and the job's total_records
is the query row count; the JSON file holds one object per query row with
the same ids, and both the total_records inside the document and the one
on the job equal the row count. -/
theorem c8_round_trip (j : ExportJob) (req : ExportRequest)
    (db : List DocumentRow) (fs : FS) (now : Int) :
    (req.format = "csv" →
      (process_export j req db fs envOk now).fs (exportPath j.job_id req.format)
        = some (.written (.csvFile (csvHeaders req)
            ((runQuery db req).map (csvRowOfDoc req)))) ∧
      ((runQuery db req).map (csvRowOfDoc req)).map (fun c => c.headD "")
        = (runQuery db req).map (fun d => toString d.id) ∧
      (process_export j req db fs envOk now).job.total_records
        = (runQuery db req).length) ∧
    (req.format = "json" →
      (process_export j req db fs envOk now).fs (exportPath j.job_id req.format)
        = some (.written (.jsonFile ⟨now, (runQuery db req).length,
            (runQuery db req).map (jsonDocOfRow req)⟩)) ∧
      ((runQuery db req).map (jsonDocOfRow req)).map (fun x => x.id)
        = (runQuery db req).map (fun d => d.id) ∧
      (process_export j req db fs envOk now).job.total_records
        = (runQuery db req).length) := by
  constructor
  · intro hf
    unfold process_export envOk
    dsimp only
    rw [hf]
    rw [if_pos rfl]
    refine ⟨setFile_self _ _ _, ?_, rfl⟩
    rw [List.map_map]
    congr 1
    funext d
    exact csvRowOfDoc_head req d
  · intro hf
    unfold process_export envOk
    dsimp only
    rw [hf]
    rw [if_neg (by decide), if_pos rfl]
    refine ⟨setFile_self _ _ _, ?_, rfl⟩
    rw [List.map_map]
    congr 1
    funext d
    exact jsonDocOfRow_id req d

/-- Witness for c8_round_trip: a concrete csv run over the fixture store. -/
theorem c8_round_trip_witness :
    (({ document_ids := some [3, 5, 9], format := "csv" } : ExportRequest).format = "csv") ∧
    ((process_export
        { job_id := "export_r", status := "pending", format := "csv",
          created_at := 0, completed_at := none, download_url := none,
          total_records := 0, error_message := none }
        c5Req c5Db emptyFS envOk 1).fs (exportPath "export_r" "csv")
      = some (.written (.csvFile (csvHeaders c5Req)
          ((runQuery c5Db c5Req).map (csvRowOfDoc c5Req)))) ∧
     ((runQuery c5Db c5Req).map (csvRowOfDoc c5Req)).map (fun c => c.headD "")
      = (runQuery c5Db c5Req).map (fun d => toString d.id) ∧
     (process_export
        { job_id := "export_r", status := "pending", format := "csv",
          created_at := 0, completed_at := none, download_url := none,
          total_records := 0, error_message := none }
        c5Req c5Db emptyFS envOk 1).job.total_records = (runQuery c5Db c5Req).length) ∧
    ((runQuery c5Db c5Req).map (fun c => toString c.id) = ["5", "3"] ∧
     (runQuery c5Db c5Req).length = 2) :=
  ⟨rfl,
   (c8_round_trip
     { job_id := "export_r", status := "pending", format := "csv",
       created_at := 0, completed_at := none, download_url := none,
       total_records := 0, error_message := none }
     c5Req c5Db emptyFS 1).1 rfl,
   by decide, by decide⟩

/-! ## Claim C6 -/

/-- C6 counterexample: a csv job whose serialization raises after the file
was opened ends failed with a half-written file left at the job's path
(the handler performs no cleanup); and a job submitted with the
unsupported format "pdf" ends completed although no file was written. -/
theorem c6_counterexample :
    (process_export
        { job_id := "export_f", status := "pending", format := "csv",
          created_at := 0, completed_at := none, download_url := none,
          total_records := 0, error_message := none }
        { format := "csv" } [] emptyFS ⟨.ok (), .ok (), .error "disk full", true⟩ 1).job.status
      = "failed" ∧
    (process_export
        { job_id := "export_f", status := "pending", format := "csv",
          created_at := 0, completed_at := none, download_url := none,
          total_records := 0, error_message := none }
        { format := "csv" } [] emptyFS ⟨.ok (), .ok (), .error "disk full", true⟩ 1).fs
        (exportPath "export_f" "csv")
      = some .truncated ∧
    (process_export
        { job_id := "export_u", status := "pending", format := "pdf",
          created_at := 0, completed_at := none, download_url := none,
          total_records := 0, error_message := none }
        { format := "pdf" } [] emptyFS envOk 1).job.status
      = "completed" ∧
    (process_export
        { job_id := "export_u", status := "pending", format := "pdf",
          created_at := 0, completed_at := none, download_url := none,
          total_records := 0, error_message := none }
        { format := "pdf" } [] emptyFS envOk 1).fs (exportPath "export_u" "pdf")
      = none :=
  ⟨rfl, rfl, rfl, rfl⟩

/-- C6 amended: a failure before the output file is opened (query, mkdir,
or the xlsx import check) leaves the filesystem untouched; a failure after
the file is opened leaves a half-written file at the job's path (nothing
discards it) and touches no other path; a successful run in a supported
format writes exactly one file, at the job's path, and touches no other
path. -/
theorem c6_file_effects (j : ExportJob) (req : ExportRequest)
    (db : List DocumentRow) (fs : FS) (env : Env) (now : Int) :
    (∀ e, env.queryOk = .error e →
      ∀ p, (process_export j req db fs env now).fs p = fs p) ∧
    (∀ e, env.queryOk = .ok () → env.mkdirOk = .error e →
      ∀ p, (process_export j req db fs env now).fs p = fs p) ∧
    (env.queryOk = .ok () → env.mkdirOk = .ok () → req.format = "xlsx" →
      env.pandasAvailable = false →
      ∀ p, (process_export j req db fs env now).fs p = fs p) ∧
    (∀ e, env.queryOk = .ok () → env.mkdirOk = .ok () → env.writeOk = .error e →
      (req.format = "csv" ∨ req.format = "json" ∨
        (req.format = "xlsx" ∧ env.pandasAvailable = true)) →
      (process_export j req db fs env now).job.status = "failed" ∧
      (process_export j req db fs env now).fs (exportPath j.job_id req.format)
        = some .truncated ∧
      ∀ p, p ≠ exportPath j.job_id req.format →
        (process_export j req db fs env now).fs p = fs p) ∧
    (env.queryOk = .ok () → env.mkdirOk = .ok () → env.writeOk = .ok () →
      (req.format = "csv" ∨ req.format = "json" ∨
        (req.format = "xlsx" ∧ env.pandasAvailable = true)) →
      (process_export j req db fs env now).job.status = "completed" ∧
      (∃ c, (process_export j req db fs env now).fs (exportPath j.job_id req.format)
        = some (.written c)) ∧
      ∀ p, p ≠ exportPath j.job_id req.format →
        (process_export j req db fs env now).fs p = fs p) := by
  rcases env with ⟨q, m, w, pa⟩
  refine ⟨?_, ?_, ?_, ?_, ?_⟩
  · intro e h p
    unfold process_export
    dsimp only at h ⊢
    subst h
    rfl
  · intro e hq hm p
    unfold process_export
    dsimp only at hq hm ⊢
    subst hq hm
    rfl
  · intro hq hm hf hp p
    unfold process_export
    dsimp only at hq hm hp ⊢
    subst hq hm hp
    dsimp only
    rw [hf]
    rw [if_neg (by decide), if_neg (by decide), if_pos rfl, if_neg (by decide)]
  · intro e hq hm hw hfmt
    unfold process_export
    dsimp only at hq hm hw ⊢
    subst hq hm hw
    dsimp only
    rcases hfmt with hf | hf | ⟨hf, hp⟩
    · rw [hf]
      rw [if_pos rfl]
      exact ⟨rfl, setFile_self _ _ _,
        fun p hp => by simp only [setFile]; rw [if_neg hp]⟩
    · rw [hf]
      rw [if_neg (by decide), if_pos rfl]
      exact ⟨rfl, setFile_self _ _ _,
        fun p hp => by simp only [setFile]; rw [if_neg hp]⟩
    · subst hp
      rw [hf]
      rw [if_neg (by decide), if_neg (by decide), if_pos rfl, if_pos rfl]
      exact ⟨rfl, setFile_self _ _ _,
        fun p hp => by simp only [setFile]; rw [if_neg hp]⟩
  · intro hq hm hw hfmt
    unfold process_export
    dsimp only at hq hm hw ⊢
    subst hq hm hw
    dsimp only
    rcases hfmt with hf | hf | ⟨hf, hp⟩
    · rw [hf]
      rw [if_pos rfl]
      exact ⟨rfl, ⟨_, setFile_self _ _ _⟩,
        fun p hp => by simp only [setFile]; rw [if_neg hp]⟩
    · rw [hf]
      rw [if_neg (by decide), if_pos rfl]
      exact ⟨rfl, ⟨_, setFile_self _ _ _⟩,
        fun p hp => by simp only [setFile]; rw [if_neg hp]⟩
    · subst hp
      rw [hf]
      rw [if_neg (by decide), if_neg (by decide), if_pos rfl, if_pos rfl]
      exact ⟨rfl, ⟨_, setFile_self _ _ _⟩,
        fun p hp => by simp only [setFile]; rw [if_neg hp]⟩

/-- Witness for c6_file_effects: successful csv run writes exactly its own
file; a failed-query run leaves the filesystem untouched. -/
theorem c6_file_effects_witness :
    ((process_export
        { job_id := "export_g", status := "pending", format := "csv",
          created_at := 0, completed_at := none, download_url := none,
          total_records := 0, error_message := none }
        { format := "csv" } [] emptyFS envOk 1).job.status = "completed" ∧
     (∃ c, (process_export
        { job_id := "export_g", status := "pending", format := "csv",
          created_at := 0, completed_at := none, download_url := none,
          total_records := 0, error_message := none }
        { format := "csv" } [] emptyFS envOk 1).fs (exportPath "export_g" "csv")
        = some (.written c)) ∧
     ∀ p, p ≠ exportPath "export_g" "csv" →
       (process_export
        { job_id := "export_g", status := "pending", format := "csv",
          created_at := 0, completed_at := none, download_url := none,
          total_records := 0, error_message := none }
        { format := "csv" } [] emptyFS envOk 1).fs p = emptyFS p) ∧
    (∀ p, (process_export
        { job_id := "export_h", status := "pending", format := "csv",
          created_at := 0, completed_at := none, download_url := none,
          total_records := 0, error_message := none }
        { format := "csv" } [] emptyFS ⟨.error "boom", .ok (), .ok (), true⟩ 1).fs p
        = emptyFS p) :=
  ⟨(c6_file_effects
      { job_id := "export_g", status := "pending", format := "csv",
        created_at := 0, completed_at := none, download_url := none,
        total_records := 0, error_message := none }
      { format := "csv" } [] emptyFS envOk 1).2.2.2.2 rfl rfl rfl (Or.inl rfl),
   (c6_file_effects
      { job_id := "export_h", status := "pending", format := "csv",
        created_at := 0, completed_at := none, download_url := none,
        total_records := 0, error_message := none }
      { format := "csv" } [] emptyFS ⟨.error "boom", .ok (), .ok (), true⟩ 1).1 "boom" rfl⟩
